import Mathlib

/-!
Shallow embedding of the comment sentiment scoring and aggregation engine
of `src/app/dashboard/page.tsx` (duplicated in `src/unnamed/part_000`).
JavaScript numbers are modelled as exact rationals; JavaScript runtime
values that may sit in a partially populated score record are modelled by
`JsValue` (finite number, NaN, an infinity, or a non-number value).
-/

namespace CommentAnalyze

/-- EmotionKey: the closed six-category emotion enumeration, in the fixed
order of the `EMOTIONS` array of the source. -/
inductive EmotionKey where
  | joy
  | sadness
  | anger
  | surprise
  | disgust
  | fear
deriving DecidableEq, Fintype, Repr

/-- EMOTIONS: the keys of the `EMOTIONS` array, in source order
(joy, sadness, anger, surprise, disgust, fear). -/
def EMOTIONS : List EmotionKey :=
  [.joy, .sadness, .anger, .surprise, .disgust, .fear]

/-- SentimentScores: a record assigning a number to each of the six
emotion categories (`Record<EmotionKey, number>` in the source). -/
structure SentimentScores where
  joy : ℚ
  sadness : ℚ
  anger : ℚ
  surprise : ℚ
  disgust : ℚ
  fear : ℚ
deriving DecidableEq, Repr

/-- Field lookup `scores[key]` on a `SentimentScores` record. -/
def SentimentScores.get (s : SentimentScores) : EmotionKey → ℚ
  | .joy => s.joy
  | .sadness => s.sadness
  | .anger => s.anger
  | .surprise => s.surprise
  | .disgust => s.disgust
  | .fear => s.fear

/-- Position of a key in the fixed `EMOTIONS` enumeration order. -/
def rank : EmotionKey → ℕ
  | .joy => 0
  | .sadness => 1
  | .anger => 2
  | .surprise => 3
  | .disgust => 4
  | .fear => 5

/-- Sum of the six values, mirroring
`Object.values(values).reduce((sum, v) => sum + v, 0)` (insertion order
joy, sadness, anger, surprise, disgust, fear). -/
def sumScores (v : SentimentScores) : ℚ :=
  v.joy + v.sadness + v.anger + v.surprise + v.disgust + v.fear

/-- The `even` value of the zero-total branch of `normalizeSentiment`:
`1 / EMOTIONS.length`. -/
def evenSplit : ℚ :=
  1 / (EMOTIONS.length : ℚ)

/-- Uniform distribution returned on a zero total. -/
def uniformScores : SentimentScores :=
  ⟨evenSplit, evenSplit, evenSplit, evenSplit, evenSplit, evenSplit⟩

/-- normalizeSentiment: divide each value by the total; on a zero total
fall back to the uniform distribution `1 / EMOTIONS.length` per key. -/
def normalizeSentiment (values : SentimentScores) : SentimentScores :=
  if sumScores values = 0 then
    uniformScores
  else
    ⟨values.joy / sumScores values, values.sadness / sumScores values,
     values.anger / sumScores values, values.surprise / sumScores values,
     values.disgust / sumScores values, values.fear / sumScores values⟩

/-- JsValue: a JavaScript runtime value found in one field of a possibly
partially populated scores object: a finite number, `NaN`, `Infinity`,
`-Infinity`, or a value that is not a number at all. -/
inductive JsValue where
  | num (q : ℚ)
  | nan
  | inf
  | negInf
  | other
deriving DecidableEq, Repr

/-- PartialScores: a `Partial<SentimentScores>` object; each field may be
missing (`none`) or hold an arbitrary runtime value. -/
structure PartialScores where
  joy : Option JsValue
  sadness : Option JsValue
  anger : Option JsValue
  surprise : Option JsValue
  disgust : Option JsValue
  fear : Option JsValue
deriving DecidableEq, Repr

/-- Field lookup `emotions[key]` on a partial scores object. -/
def PartialScores.get (p : PartialScores) : EmotionKey → Option JsValue
  | .joy => p.joy
  | .sadness => p.sadness
  | .anger => p.anger
  | .surprise => p.surprise
  | .disgust => p.disgust
  | .fear => p.fear

/-- Per-field guard of `ensureSentimentScores`:
`typeof value === "number" && Number.isFinite(value) ? value : 0`. -/
def fillValue : Option JsValue → ℚ
  | some (.num q) => q
  | _ => 0

/-- The `filled` record built by `ensureSentimentScores`; a missing
object (`emotions` undefined) makes `emotions?.[key]` undefined for every
key, hence every field 0. -/
def fillScores : Option PartialScores → SentimentScores
  | none => ⟨0, 0, 0, 0, 0, 0⟩
  | some e =>
      ⟨fillValue e.joy, fillValue e.sadness, fillValue e.anger,
       fillValue e.surprise, fillValue e.disgust, fillValue e.fear⟩

/-- ensureSentimentScores: coerce every field to a finite number
(missing / non-finite / non-number becomes 0) and renormalize. -/
def ensureSentimentScores (emotions : Option PartialScores) : SentimentScores :=
  normalizeSentiment (fillScores emotions)

/-- View of a complete scores record as the runtime object handed to
`ensureSentimentScores`: every field present and a finite number. -/
def SentimentScores.toPartial (s : SentimentScores) : PartialScores :=
  ⟨some (.num s.joy), some (.num s.sadness), some (.num s.anger),
   some (.num s.surprise), some (.num s.disgust), some (.num s.fear)⟩

/-- EMOTION_LEXICON: the fixed keyword lexicon of the source, verbatim. -/
def EMOTION_LEXICON : EmotionKey → List String
  | .joy => ["좋", "사랑", "최고", "대박", "행복", "ㅋㅋ", "ㅎㅎ", "굿", "❤️", "😍", "멋져"]
  | .sadness => ["슬프", "아쉽", "속상", "ㅠ", "ㅜ", "눈물", "우울", "허전"]
  | .anger => ["화나", "짜증", "빡치", "열받", "분노", "최악", "역겹", "화났"]
  | .surprise => ["놀라", "헐", "미쳤", "와", "대박", "충격", "어메이징", "역대급"]
  | .disgust => ["별로", "싫", "구림", "노잼", "혐오", "어색", "촌스럽", "구리"]
  | .fear => ["불안", "무섭", "걱정", "위험", "떨리", "두렵", "긴장"]

/-- Total number of lexicon entries across the six categories. -/
def totalLexiconCount : ℕ :=
  (EMOTIONS.map fun k => (EMOTION_LEXICON k).length).sum

/-- Whether `needle` is an initial segment of `hay`. -/
def startsWithSub : List Char → List Char → Bool
  | [], _ => true
  | _ :: _, [] => false
  | a :: as, b :: bs => a = b && startsWithSub as bs

/-- Substring containment, the model of JavaScript `hay.includes(needle)`. -/
def containsSub (needle : List Char) : List Char → Bool
  | [] => startsWithSub needle []
  | c :: rest => startsWithSub needle (c :: rest) || containsSub needle rest

/-- Character list of `text.toLowerCase()`, the `normalized` value of
`scoreEmotionByKeywords`. -/
def normText (text : String) : List Char :=
  text.data.map Char.toLower

/-- Keyword accumulation of one category: fold over its lexicon adding
`0.18` for each entry that occurs in the normalized text
(`if (normalized.includes(keyword)) scores[key] += 0.18`). -/
def keywordBoost (normalized : List Char) (keywords : List String) : ℚ :=
  keywords.foldl
    (fun acc kw => if containsSub kw.data normalized then acc + 0.18 else acc) 0

/-- Number of lexicon entries of category `k` occurring in the text. -/
def matchCount (normalized : List Char) (k : EmotionKey) : ℕ :=
  ((EMOTION_LEXICON k).filter fun kw => containsSub kw.data normalized).length

/-- Model of the regex test `/[!?]{2,}/`: two or more consecutive `!` or
`?` characters, i.e. some adjacent pair of characters both in `{!, ?}`. -/
def hasRepeatedPunct : List Char → Bool
  | [] => false
  | [_] => false
  | a :: b :: rest =>
      ((a = '!' || a = '?') && (b = '!' || b = '?')) ||
        hasRepeatedPunct (b :: rest)

/-- Model of the regex test `/ㅋㅋ+|ㅎㅎ+/`: the text contains `ㅋㅋ` or
`ㅎㅎ` (the `+` only requires at least one repetition). -/
def hasLaughterRun (normalized : List Char) : Bool :=
  containsSub "ㅋㅋ".data normalized || containsSub "ㅎㅎ".data normalized

/-- Model of the regex test `/ㅎㄷㄷ|ㄷㄷ/`. -/
def hasShockRun (normalized : List Char) : Bool :=
  containsSub "ㅎㄷㄷ".data normalized || containsSub "ㄷㄷ".data normalized

/-- Model of the regex test `/ㅠ+|ㅜ+/`: the text contains `ㅠ` or `ㅜ`. -/
def hasCryingRun (normalized : List Char) : Bool :=
  containsSub "ㅠ".data normalized || containsSub "ㅜ".data normalized

/-- Pre-normalization scores of `scoreEmotionByKeywords`: the `scores`
object after the keyword loop and the four independent heuristic
additions (each `+=` rendered as an added `if _ then c else 0` term;
the additions are independent and additive, so the sequential mutation
of the source collapses to one sum per field). -/
def rawScores (text : String) : SentimentScores :=
  { joy := 0.02 + keywordBoost (normText text) (EMOTION_LEXICON .joy) +
      (if hasLaughterRun (normText text) then 0.1 else 0)
    sadness := 0.02 + keywordBoost (normText text) (EMOTION_LEXICON .sadness) +
      (if hasCryingRun (normText text) then 0.1 else 0)
    anger := 0.02 + keywordBoost (normText text) (EMOTION_LEXICON .anger)
    surprise := 0.02 + keywordBoost (normText text) (EMOTION_LEXICON .surprise) +
      (if hasRepeatedPunct (normText text) then 0.12 else 0) +
      (if hasShockRun (normText text) then 0.08 else 0)
    disgust := 0.02 + keywordBoost (normText text) (EMOTION_LEXICON .disgust)
    fear := 0.02 + keywordBoost (normText text) (EMOTION_LEXICON .fear) }

/-- scoreEmotionByKeywords: keyword scores plus heuristics, normalized. -/
def scoreEmotionByKeywords (text : String) : SentimentScores :=
  normalizeSentiment (rawScores text)

/-- External interface name of the scoring engine (§6 of the spec);
implemented by `scoreEmotionByKeywords`. -/
def scoreComment (text : String) : SentimentScores :=
  scoreEmotionByKeywords text

/-- CommentBase: identifier, author, raw text, like count, timestamp. -/
structure CommentBase where
  id : String
  author : String
  text : String
  likes : ℚ
  publishedAt : String
deriving DecidableEq, Repr

/-- CommentBaseWithEmotions: an incoming comment, optionally carrying a
(possibly partial, possibly malformed) precomputed scores object. -/
structure CommentIn extends CommentBase where
  emotions : Option PartialScores
deriving DecidableEq, Repr

/-- CommentInsight: a comment with scores guaranteed present. -/
structure CommentInsight extends CommentBase where
  emotions : SentimentScores
deriving DecidableEq, Repr

/-- CommentsResponse: the payload handed to `buildAnalysis`. -/
structure CommentsResponse where
  videoTitle : String
  channelTitle : String
  comments : List CommentIn
deriving DecidableEq, Repr

/-- AnalysisResponse: the result of `buildAnalysis`. -/
structure AnalysisResponse where
  videoTitle : String
  channelName : String
  summary : SentimentScores
  totalComments : ℕ
  topComments : List CommentInsight
deriving DecidableEq, Repr

/-- The `enriched` map step of `buildAnalysis`:
`{...comment, emotions: ensureSentimentScores(comment.emotions ?? scoreEmotionByKeywords(comment.text))}`. -/
def enrichComment (c : CommentIn) : CommentInsight :=
  { toCommentBase := c.toCommentBase
    emotions := ensureSentimentScores
      (some (c.emotions.getD (scoreEmotionByKeywords c.text).toPartial)) }

/-- buildAnalysis: enrich every comment, average each category over the
insights with denominator `Math.max(length, 1)`, normalize the means,
report the full count and the first 30 insights. -/
def buildAnalysis (payload : CommentsResponse) : AnalysisResponse :=
  let enriched := payload.comments.map enrichComment
  let denom : ℚ := ((max enriched.length 1 : ℕ) : ℚ)
  let avg : EmotionKey → ℚ := fun k =>
    (enriched.foldl (fun sum c => sum + c.emotions.get k) 0) / denom
  { videoTitle := payload.videoTitle
    channelName := payload.channelTitle
    summary := normalizeSentiment
      ⟨avg .joy, avg .sadness, avg .anger, avg .surprise, avg .disgust, avg .fear⟩
    totalComments := enriched.length
    topComments := enriched.take 30 }

/-- getDominantEmotion:
`EMOTIONS.reduce((prev, cur) => emotions[cur.key] > emotions[prev.key] ? cur : prev, EMOTIONS[0])`. -/
def getDominantEmotion (emotions : SentimentScores) : EmotionKey :=
  EMOTIONS.foldl
    (fun prev current =>
      if emotions.get current > emotions.get prev then current else prev)
    (EMOTIONS.headD .joy)

/-! ## Helper lemmas -/

lemma sumScores_mk (a b c d e f : ℚ) :
    sumScores ⟨a, b, c, d, e, f⟩ = a + b + c + d + e + f :=
  rfl

lemma sumScores_normalizeSentiment (v : SentimentScores) :
    sumScores (normalizeSentiment v) = 1 := by
  unfold normalizeSentiment
  split_ifs with h
  · simp [sumScores, uniformScores, evenSplit, EMOTIONS]
    norm_num
  · rw [sumScores_mk, div_add_div_same, div_add_div_same, div_add_div_same,
      div_add_div_same, div_add_div_same]
    exact div_self h

lemma sumScores_nonneg (v : SentimentScores) (h : ∀ k, 0 ≤ v.get k) :
    0 ≤ sumScores v := by
  have h1 := h .joy
  have h2 := h .sadness
  have h3 := h .anger
  have h4 := h .surprise
  have h5 := h .disgust
  have h6 := h .fear
  simp only [SentimentScores.get] at h1 h2 h3 h4 h5 h6
  unfold sumScores
  linarith

lemma normalizeSentiment_get_nonneg (v : SentimentScores)
    (h : ∀ k, 0 ≤ v.get k) :
    ∀ k, 0 ≤ (normalizeSentiment v).get k := by
  intro k
  unfold normalizeSentiment
  split_ifs with hz
  · cases k <;> simp [SentimentScores.get, uniformScores, evenSplit, EMOTIONS]
  · have htot : 0 < sumScores v := (sumScores_nonneg v h).lt_of_ne (Ne.symm hz)
    have hk := h k
    cases k <;> simp only [SentimentScores.get] at hk ⊢ <;>
      exact div_nonneg hk htot.le

lemma keywordBoost_foldl (normalized : List Char) (kws : List String) :
    ∀ a : ℚ,
      kws.foldl
        (fun acc kw => if containsSub kw.data normalized then acc + 0.18 else acc)
        a =
      a + 0.18 * ((kws.filter fun kw => containsSub kw.data normalized).length : ℚ) := by
  induction kws with
  | nil => intro a; simp
  | cons kw rest ih =>
      intro a
      rw [List.foldl_cons, List.filter_cons]
      by_cases hkw : containsSub kw.data normalized
      · rw [if_pos hkw, ih (a + 0.18)]
        simp [hkw]
        ring
      · rw [if_neg hkw, ih a]
        simp [hkw]

lemma keywordBoost_eq (normalized : List Char) (k : EmotionKey) :
    keywordBoost normalized (EMOTION_LEXICON k) =
      0.18 * (matchCount normalized k : ℚ) := by
  unfold keywordBoost matchCount
  rw [keywordBoost_foldl]
  ring

lemma keywordBoost_nonneg (normalized : List Char) (k : EmotionKey) :
    0 ≤ keywordBoost normalized (EMOTION_LEXICON k) := by
  rw [keywordBoost_eq]
  positivity

lemma rawScores_get_lb (text : String) (k : EmotionKey) :
    0.02 ≤ (rawScores text).get k := by
  have hb := keywordBoost_nonneg (normText text) k
  cases k <;>
    simp only [rawScores, SentimentScores.get] at hb ⊢ <;>
    first
      | (split_ifs <;> linarith)
      | linarith

lemma sumScores_rawScores_pos (text : String) :
    0 < sumScores (rawScores text) := by
  have h1 := rawScores_get_lb text .joy
  have h2 := rawScores_get_lb text .sadness
  have h3 := rawScores_get_lb text .anger
  have h4 := rawScores_get_lb text .surprise
  have h5 := rawScores_get_lb text .disgust
  have h6 := rawScores_get_lb text .fear
  simp only [SentimentScores.get] at h1 h2 h3 h4 h5 h6
  unfold sumScores
  linarith

/-! ## C1 -/

/-- C1: for every input string, `scoreComment` (implemented by
`scoreEmotionByKeywords`) returns a record of six values, each
non-negative (and, as an exact rational, finite), whose sum is exactly 1
— in particular within the 1e-9 tolerance of the claim. -/
theorem scoreComment_valid_distribution (text : String) :
    (∀ k, 0 ≤ (scoreComment text).get k) ∧
    sumScores (scoreComment text) = 1 := by
  unfold scoreComment scoreEmotionByKeywords
  refine ⟨?_, sumScores_normalizeSentiment _⟩
  exact normalizeSentiment_get_nonneg _ fun k => by
    have := rawScores_get_lb text k
    linarith

/-! ## C4 -/

/-- C4 counterexample: the total lexicon entry count is not 36 — counting
the entries of `EMOTION_LEXICON` gives 11 + 8 + 8 + 8 + 8 + 7 = 50. -/
theorem totalLexiconCount_ne_36 : totalLexiconCount ≠ 36 := by
  decide

/-- C4 (amended): the fixed emotion lexicon contains 50 entries in total
across the six categories. -/
theorem totalLexiconCount_eq_50 : totalLexiconCount = 50 := by
  decide

/-! ## C2 -/

lemma fillScores_toPartial (s : SentimentScores) :
    fillScores (some s.toPartial) = s :=
  rfl

lemma fillScores_get_some (p : PartialScores) (k : EmotionKey) :
    (fillScores (some p)).get k = fillValue (p.get k) := by
  cases k <;> rfl

/-- A per-field validity flag used to state the amended C2: a present
finite numeric value must be non-negative; anything else passes because
`ensureSentimentScores` replaces it by 0. -/
def fieldOk : Option JsValue → Bool
  | some (.num q) => decide (0 ≤ q)
  | _ => true

lemma fieldOk_nonneg {v : Option JsValue} (h : fieldOk v = true) :
    0 ≤ fillValue v := by
  match v with
  | some (.num q) => simpa [fieldOk, fillValue] using h
  | some .nan => simp [fillValue]
  | some .inf => simp [fillValue]
  | some .negInf => simp [fillValue]
  | some .other => simp [fillValue]
  | none => simp [fillValue]

lemma scoreEmotionByKeywords_get_nonneg (t : String) :
    ∀ k, 0 ≤ (scoreEmotionByKeywords t).get k := by
  unfold scoreEmotionByKeywords
  exact normalizeSentiment_get_nonneg _ fun k => by
    have := rawScores_get_lb t k
    linarith

/-- C2 counterexample: on a comment whose pre-attached scores contain a
negative finite value, score completion returns a record with a negative
entry: with `joy = -1`, `sadness = 2` the total is 1 and the normalized
`joy` stays `-1`, violating the claimed non-negativity invariant. -/
theorem ensureSentimentScores_negative_entry :
    (ensureSentimentScores
        (some ⟨some (.num (-1)), some (.num 2), none, none, none, none⟩)).joy < 0 := by
  norm_num [ensureSentimentScores, fillScores, fillValue, normalizeSentiment,
    sumScores, uniformScores, evenSplit]

/-- C2 (amended): for every input comment whose present finite
per-category values are non-negative — missing, NaN, infinite and
non-numeric values remain allowed and are treated as 0 — score completion
(`ensureSentimentScores` inside `enrichComment`, with
`scoreEmotionByKeywords` as the no-scores fallback) never fails and
returns six non-negative values summing exactly to 1. -/
theorem enrichComment_invariant (c : CommentIn)
    (h : ∀ p, c.emotions = some p → ∀ k, fieldOk (p.get k) = true) :
    (∀ k, 0 ≤ (enrichComment c).emotions.get k) ∧
    sumScores (enrichComment c).emotions = 1 := by
  refine ⟨?_, ?_⟩
  · intro k
    rcases hc : c.emotions with _ | p
    · simp only [enrichComment, hc, Option.getD_none, ensureSentimentScores,
        fillScores_toPartial]
      exact normalizeSentiment_get_nonneg _ (scoreEmotionByKeywords_get_nonneg c.text) k
    · simp only [enrichComment, hc, Option.getD_some, ensureSentimentScores]
      refine normalizeSentiment_get_nonneg _ ?_ k
      intro k2
      rw [fillScores_get_some]
      exact fieldOk_nonneg (h p hc k2)
  · simp only [enrichComment, ensureSentimentScores]
    exact sumScores_normalizeSentiment _

/-- Concrete comment for the C2 witness: a partially populated, partly
malformed scores object (NaN, Infinity, a non-number, two finite
non-negative numbers, one missing field). -/
def commentWithMessyScores : CommentIn :=
  { id := "c-1"
    author := "user"
    text := "hello"
    likes := 3
    publishedAt := "2024-01-01"
    emotions := some
      ⟨some .nan, some (.num 3), none, some .inf, some .other, some (.num 0)⟩ }

/-- C2 witness: the amended invariant evaluated on
`commentWithMessyScores`. -/
theorem enrichComment_invariant_witness :
    (∀ k, 0 ≤ (enrichComment commentWithMessyScores).emotions.get k) ∧
    sumScores (enrichComment commentWithMessyScores).emotions = 1 :=
  enrichComment_invariant commentWithMessyScores
    (by
      intro p hp k
      simp only [commentWithMessyScores, Option.some.injEq] at hp
      subst hp
      cases k <;> decide)

/-! ## C6 -/

/-- C6: score completion is idempotent on valid input — six finite
non-negative values already summing to 1 are returned unchanged by
`ensureSentimentScores`. -/
theorem ensureSentimentScores_idempotent (s : SentimentScores)
    (_hnn : ∀ k, 0 ≤ s.get k) (hsum : sumScores s = 1) :
    ensureSentimentScores (some s.toPartial) = s := by
  simp only [ensureSentimentScores, fillScores_toPartial]
  unfold normalizeSentiment
  rw [hsum, if_neg one_ne_zero]
  simp

/-- Concrete already-normalized scores for the C6 witness. -/
def normalizedSample : SentimentScores :=
  ⟨1/2, 1/4, 1/8, 1/16, 1/32, 1/32⟩

/-- C6 witness: idempotence evaluated on `normalizedSample`. -/
theorem ensureSentimentScores_idempotent_witness :
    (∀ k, 0 ≤ normalizedSample.get k) ∧ sumScores normalizedSample = 1 ∧
    ensureSentimentScores (some normalizedSample.toPartial) = normalizedSample :=
  ⟨fun k => by cases k <;> norm_num [normalizedSample, SentimentScores.get],
   by norm_num [normalizedSample, sumScores],
   ensureSentimentScores_idempotent normalizedSample
     (fun k => by cases k <;> norm_num [normalizedSample, SentimentScores.get])
     (by norm_num [normalizedSample, sumScores])⟩

/-! ## C3 -/

/-- A 45-comment payload for the truncation instance of C3. -/
def payload45 : CommentsResponse :=
  { videoTitle := "video"
    channelTitle := "channel"
    comments := List.replicate 45 ⟨⟨"id", "author", "text", 0, "ts"⟩, none⟩ }

/-- C3: `buildAnalysis` reports `totalComments` as the full
pre-truncation count of insights, and `topComments` is the first
at-most-30 insights in input order (the prefix of the enriched list, no
re-sorting); on the 45-comment payload this gives `totalComments = 45`
and 30 top comments. -/
theorem buildAnalysis_total_and_truncation (payload : CommentsResponse) :
    (buildAnalysis payload).totalComments = payload.comments.length ∧
    (buildAnalysis payload).topComments =
      (payload.comments.map enrichComment).take 30 ∧
    (buildAnalysis payload).topComments.length = min 30 payload.comments.length ∧
    (buildAnalysis payload45).totalComments = 45 ∧
    (buildAnalysis payload45).topComments.length = 30 := by
  have htot : ∀ p : CommentsResponse,
      (buildAnalysis p).totalComments = p.comments.length := by
    intro p
    simp only [buildAnalysis, List.length_map]
  have htop : ∀ p : CommentsResponse,
      (buildAnalysis p).topComments = (p.comments.map enrichComment).take 30 :=
    fun _ => rfl
  have hlen : ∀ p : CommentsResponse,
      (buildAnalysis p).topComments.length = min 30 p.comments.length := by
    intro p
    rw [htop]
    simp [List.length_take]
  refine ⟨htot payload, htop payload, hlen payload, ?_, ?_⟩
  · rw [htot]
    simp [payload45]
  · rw [hlen]
    simp only [payload45, List.length_replicate]
    decide

/-! ## C8 -/

/-- C8: `buildAnalysis` on an empty comment list reports
`totalComments = 0` and the uniform summary distribution (each category
exactly 1/6): the per-category mean uses denominator `max 0 1 = 1`, is 0,
and normalizing the all-zero record falls back to the uniform split. -/
theorem buildAnalysis_empty (vt ct : String) :
    (buildAnalysis ⟨vt, ct, []⟩).totalComments = 0 ∧
    (buildAnalysis ⟨vt, ct, []⟩).summary = ⟨1/6, 1/6, 1/6, 1/6, 1/6, 1/6⟩ := by
  constructor
  · simp [buildAnalysis]
  · simp only [buildAnalysis, List.map_nil, List.foldl_nil, List.length_nil]
    norm_num [normalizeSentiment, sumScores, uniformScores, evenSplit, EMOTIONS]

/-! ## C10 -/

/-- C10: every element of `topComments` carries the id, author, text,
likes and publishedAt fields of the corresponding input comment
unchanged; only the `emotions` field is (re)computed. Stated as: mapping
the insights back to their base fields gives exactly the base fields of
the first at-most-30 input comments, in order. -/
theorem buildAnalysis_preserves_base_fields (payload : CommentsResponse) :
    (buildAnalysis payload).topComments.map CommentInsight.toCommentBase =
      (payload.comments.take 30).map CommentIn.toCommentBase := by
  simp only [buildAnalysis, ← List.map_take, List.map_map]
  rfl

/-! ## C7 -/

set_option maxHeartbeats 1600000 in
/-- C7: `getDominantEmotion` returns a category of maximal score, and
among the maximal categories the one first in the fixed enumeration
order joy, sadness, anger, surprise, disgust, fear; in particular when
joy and sadness are exactly equal and both maximal it returns joy. -/
theorem getDominantEmotion_first_max (s : SentimentScores) :
    (∀ k, s.get k ≤ s.get (getDominantEmotion s)) ∧
    (∀ k, s.get (getDominantEmotion s) ≤ s.get k →
      rank (getDominantEmotion s) ≤ rank k) ∧
    (s.joy = s.sadness → (∀ k, s.get k ≤ s.get .joy) →
      getDominantEmotion s = .joy) := by
  have H12 : (∀ k, s.get k ≤ s.get (getDominantEmotion s)) ∧
      (∀ k, s.get (getDominantEmotion s) ≤ s.get k →
        rank (getDominantEmotion s) ≤ rank k) := by
    unfold getDominantEmotion EMOTIONS
    simp only [List.headD, List.foldl, gt_iff_lt, lt_self_iff_false, if_false]
    split_ifs <;>
      refine ⟨fun k => ?_, fun k hk => ?_⟩ <;>
      cases k <;>
      simp only [SentimentScores.get, rank, not_lt, gt_iff_lt] at * <;>
      linarith
  refine ⟨H12.1, H12.2, fun _hjs hmax => ?_⟩
  have h2 : rank (getDominantEmotion s) ≤ rank .joy :=
    H12.2 .joy (hmax (getDominantEmotion s))
  revert h2
  cases hE : getDominantEmotion s <;> intro h2 <;> simp_all [rank]

/-- Concrete scores for the C7 witness: joy and sadness tie for the
maximum. -/
def tieScores : SentimentScores :=
  ⟨5, 5, 1, 2, 3, 4⟩

/-- C7 witness: the tie-break instance evaluated on `tieScores`. -/
theorem getDominantEmotion_first_max_witness :
    getDominantEmotion tieScores = .joy :=
  (getDominantEmotion_first_max tieScores).2.2
    (by norm_num [tieScores])
    (fun k => by cases k <;> norm_num [tieScores, SentimentScores.get])

/-! ## C5 -/

/-- C5: a text whose lower-cased form contains exactly one joy-lexicon
entry, no lexicon entry of any other category, and triggers none of the
four punctuation/glyph heuristics, is scored with joy strictly greater
than each of the other five categories. -/
theorem joy_marker_dominant (text : String)
    (hjoy : matchCount (normText text) .joy = 1)
    (hoth : ∀ k, k ≠ EmotionKey.joy → matchCount (normText text) k = 0)
    (hpu : hasRepeatedPunct (normText text) = false)
    (hla : hasLaughterRun (normText text) = false)
    (hsh : hasShockRun (normText text) = false)
    (hcr : hasCryingRun (normText text) = false) :
    ∀ k, k ≠ EmotionKey.joy →
      (scoreComment text).get k < (scoreComment text).get .joy := by
  have hraw : rawScores text = ⟨0.2, 0.02, 0.02, 0.02, 0.02, 0.02⟩ := by
    simp only [rawScores, keywordBoost_eq, hjoy, hoth .sadness (by decide),
      hoth .anger (by decide), hoth .surprise (by decide),
      hoth .disgust (by decide), hoth .fear (by decide), hpu, hla, hsh, hcr,
      Bool.false_eq_true, if_false]
    norm_num
  have hnorm : scoreComment text = ⟨2/3, 1/15, 1/15, 1/15, 1/15, 1/15⟩ := by
    unfold scoreComment scoreEmotionByKeywords
    rw [hraw]
    unfold normalizeSentiment
    split_ifs with h
    · exfalso
      norm_num [sumScores] at h
    · norm_num [sumScores]
  intro k hk
  rw [hnorm]
  cases k <;> simp only [SentimentScores.get] <;> first
    | exact absurd rfl hk
    | norm_num

/-- C5 witness: the single-character text `굿` contains exactly the joy
entry `굿`, nothing from the other five lexicons, and fires no
heuristic; joy strictly dominates. -/
theorem joy_marker_dominant_witness :
    (matchCount (normText "굿") .joy = 1 ∧
      (∀ k, k ≠ EmotionKey.joy → matchCount (normText "굿") k = 0) ∧
      hasRepeatedPunct (normText "굿") = false ∧
      hasLaughterRun (normText "굿") = false ∧
      hasShockRun (normText "굿") = false ∧
      hasCryingRun (normText "굿") = false) ∧
    (∀ k, k ≠ EmotionKey.joy →
      (scoreComment "굿").get k < (scoreComment "굿").get .joy) :=
  ⟨⟨by decide, by decide, by decide, by decide, by decide, by decide⟩,
   joy_marker_dominant "굿" (by decide) (by decide) (by decide) (by decide)
     (by decide) (by decide)⟩

/-! ## C9 -/

/-- C9: a text in which no lexicon entry of any category occurs and no
punctuation/glyph heuristic fires is scored with the uniform
distribution, every category exactly 1/6. -/
theorem scoreComment_no_signal_uniform (text : String)
    (hm : ∀ k, matchCount (normText text) k = 0)
    (hpu : hasRepeatedPunct (normText text) = false)
    (hla : hasLaughterRun (normText text) = false)
    (hsh : hasShockRun (normText text) = false)
    (hcr : hasCryingRun (normText text) = false) :
    scoreComment text = ⟨1/6, 1/6, 1/6, 1/6, 1/6, 1/6⟩ := by
  have hraw : rawScores text = ⟨0.02, 0.02, 0.02, 0.02, 0.02, 0.02⟩ := by
    simp only [rawScores, keywordBoost_eq, hm, hpu, hla, hsh, hcr,
      Bool.false_eq_true, if_false]
    norm_num
  unfold scoreComment scoreEmotionByKeywords
  rw [hraw]
  unfold normalizeSentiment
  split_ifs with h
  · exfalso
    norm_num [sumScores] at h
  · norm_num [sumScores]

/-- C9 witness: the empty string matches nothing and fires no heuristic;
its score is the uniform distribution. -/
theorem scoreComment_no_signal_uniform_witness :
    ((∀ k, matchCount (normText "") k = 0) ∧
      hasRepeatedPunct (normText "") = false ∧
      hasLaughterRun (normText "") = false ∧
      hasShockRun (normText "") = false ∧
      hasCryingRun (normText "") = false) ∧
    scoreComment "" = ⟨1/6, 1/6, 1/6, 1/6, 1/6, 1/6⟩ :=
  ⟨⟨by decide, by decide, by decide, by decide, by decide⟩,
   scoreComment_no_signal_uniform "" (by decide) (by decide) (by decide)
     (by decide) (by decide)⟩

end CommentAnalyze
